import Mathlib

/-!
# Verification of `udhos/otelconfig` (package `oteltrace`)

Shallow embedding of the tracing-bootstrap helper in this repository.
The repository bundles two versions of the package:

* `oteltrace` below embeds the current version (`TraceOptions`-based
  `TraceStart`, `createExporter` with an endpoint parameter);
* `oteltraceOld` below embeds the older copy in `oteltrace/trace.go`
  (`TraceStart(defaultService, debug)`, `createExporter` without an
  endpoint parameter).

Exporters, providers, propagators and the process-global registry are
modelled as explicit data; environment variables are an explicit `Env`
record; `log.Fatalf` in the shutdown closure is modelled as a
`CleanOutcome.fatalExit` result.  Go standard-library string and URL
operations used by the code are embedded as executable functions on
`List Char` below.
-/

/-! ## Go string helpers (modelled from the Go standard library) -/

/-- Split a character list at every occurrence of a separator, keeping
empty fields, like Go `strings.Split` specialised to a one-character
separator (this is also the splitting underlying `strings.FieldsFunc`
with a one-character predicate, before empty fields are dropped). -/
def goSplitChar (sep : Char) : List Char → List (List Char)
  | [] => [[]]
  | c :: rest =>
    if c = sep then [] :: goSplitChar sep rest
    else
      match goSplitChar sep rest with
      | [] => [[c]]
      | h :: t => (c :: h) :: t

/-- Whitespace predicate of Go `unicode.IsSpace`, restricted to the
Latin-1 range (the full Unicode table also has exotic space code
points; none are relevant to the strings handled here). -/
def goIsSpace (c : Char) : Bool :=
  c = ' ' || c = '\t' || c = '\n' || c.toNat = 0xb || c.toNat = 0xc ||
  c = '\r' || c.toNat = 0x85 || c.toNat = 0xa0

/-- Go `strings.TrimSpace`: drop leading and trailing whitespace. -/
def goTrimSpace (s : String) : String :=
  (((s.toList.dropWhile goIsSpace).reverse.dropWhile goIsSpace).reverse).asString

/-- Go `strings.FieldsFunc` with the predicate `c == sep`: split and
drop the empty fields. -/
def goFieldsChar (sep : Char) (s : String) : List String :=
  ((goSplitChar sep s.toList).filter (fun f => !f.isEmpty)).map List.asString

/-- The first component of Go `strings.Cut(s, "=")`: the part of `s`
before the first `=`, or all of `s` when there is none. -/
def goCutKey (s : String) : String :=
  (s.toList.takeWhile (fun c => c ≠ '=')).asString

/-! ## Model of Go `net/url` path joining

`createExporter` derives the Jaeger collector endpoint with
`url.JoinPath(otelEndpoint, "/api/traces")`.  The functions below embed
the fragment of `net/url` that this call exercises: absolute URLs of
the shape `scheme://host[/path][?query]`.  As in Go `url.Parse`, the
fragment and query components are split off first, control characters
and a missing scheme are errors, and the host is validated: an
optional `:port` must be all digits, percent escapes must be
well-formed and must not encode ASCII (`%25` excepted), and every
other character must be legal in a host; parse errors are wrapped as
`parse "<url>": <cause>` with Go quoting.  Branches outside the
modelled fragment (userinfo, bracketed IPv6 hosts, opaque, relative
and authority-less URLs, URLs carrying a fragment) are mapped to a
tagged `model:` error, and valid percent escapes are kept verbatim in
the host instead of being decoded and re-encoded (Go output can differ
there only in the case of the hex digits); no theorem below depends on
those branches. -/

/-- ASCII control characters, rejected by Go `url.Parse`. -/
def isCtl (c : Char) : Bool :=
  c.toNat < 0x20 || c.toNat = 0x7f

/-- Split at the first occurrence of a separator, like Go
`net/url.split`: the separator itself goes to neither part when `cutc`
is true, and to the tail otherwise; without a separator the tail is
empty. -/
def goSplitOnce (sep : Char) (cutc : Bool) : List Char → List Char × List Char
  | [] => ([], [])
  | c :: rest =>
    if c = sep then ([], if cutc then rest else c :: rest)
    else ((goSplitOnce sep cutc rest).1.cons c, (goSplitOnce sep cutc rest).2)

/-- Scheme scanner of Go `net/url.getScheme`: `seen` holds the scheme
characters read so far, in reverse.  Returns `(scheme, rest)`;
a scheme-less input comes back with an empty `scheme`. -/
def getSchemeAux (seen : List Char) : List Char → Except String (List Char × List Char)
  | [] => .ok ([], seen.reverse)
  | c :: rest =>
    if c.isAlpha then getSchemeAux (c :: seen) rest
    else if c.isDigit || c = '+' || c = '-' || c = '.' then
      if seen.isEmpty then .ok ([], c :: rest)
      else getSchemeAux (c :: seen) rest
    else if c = ':' then
      if seen.isEmpty then .error "missing protocol scheme"
      else .ok (seen.reverse, rest)
    else .ok ([], seen.reverse ++ c :: rest)

/-- Lowercase hex digit for a value below 16, as in Go `strconv`. -/
def hexDigitChar (n : Nat) : Char :=
  if n < 10 then Char.ofNat (48 + n) else Char.ofNat (87 + n)

/-- Quoting of one character under Go `strconv.Quote`, restricted to
the escapes reachable from ASCII input (letter escapes, `\x` escapes
for the remaining control characters, backslash and double quote). -/
def goQuoteChar (c : Char) : List Char :=
  if c = Char.ofNat 34 then [Char.ofNat 92, Char.ofNat 34]
  else if c = Char.ofNat 92 then [Char.ofNat 92, Char.ofNat 92]
  else if c = Char.ofNat 7 then [Char.ofNat 92, 'a']
  else if c = Char.ofNat 8 then [Char.ofNat 92, 'b']
  else if c = Char.ofNat 12 then [Char.ofNat 92, 'f']
  else if c = '\n' then [Char.ofNat 92, 'n']
  else if c = '\r' then [Char.ofNat 92, 'r']
  else if c = '\t' then [Char.ofNat 92, 't']
  else if c = Char.ofNat 11 then [Char.ofNat 92, 'v']
  else if c.toNat < 0x20 ∨ c.toNat = 0x7f then
    [Char.ofNat 92, 'x', hexDigitChar (c.toNat / 16), hexDigitChar (c.toNat % 16)]
  else [c]

/-- Go `strconv.Quote`, used by the `%q` verb in `net/url` error
messages. -/
def goQuote (s : String) : String :=
  ((Char.ofNat 34 :: s.toList.flatMap goQuoteChar) ++ [Char.ofNat 34]).asString

/-- Hexadecimal digit predicate of Go `net/url.ishex`. -/
def isHexDigit (c : Char) : Bool :=
  ('0' ≤ c && c ≤ '9') || ('a' ≤ c && c ≤ 'f') || ('A' ≤ c && c ≤ 'F')

/-- Value of a hexadecimal digit, Go `net/url.unhex`. -/
def unhex (c : Char) : Nat :=
  if '0' ≤ c ∧ c ≤ '9' then c.toNat - 48
  else if 'a' ≤ c ∧ c ≤ 'f' then c.toNat - 87
  else c.toNat - 55

/-- Punctuation that Go `shouldEscape` admits in a host: the RFC 3986
sub-delims plus `: [ ] < > "` and the unreserved marks. -/
def hostAllowedPunct : List Char :=
  ['-', '_', '.', '~', '!', '$', '&', Char.ofNat 39, '(', ')', '*', '+', ',',
   ';', '=', ':', '[', ']', '<', '>', Char.ofNat 34]

/-- Characters legal in a host under Go `shouldEscape(c, encodeHost)`:
alphanumerics, the admitted punctuation, and all non-ASCII bytes. -/
def validHostChar (c : Char) : Bool :=
  c.isAlphanum || hostAllowedPunct.contains c || decide (0x80 ≤ c.toNat)

/-- Host scan of Go `unescape(host, encodeHost)`: a `%` must be
followed by two hex digits and must not encode an ASCII byte (`%25`
excepted); every other ASCII character must be host-legal.  Returns
the first error, or `none`.  Valid escapes are kept verbatim (Go
decodes and later re-encodes them; see the section comment). -/
def hostEscapeErr : List Char → Option String
  | [] => none
  | c :: rest =>
    if c = '%' then
      match rest with
      | a :: b :: rest2 =>
        if isHexDigit a = true ∧ isHexDigit b = true then
          if unhex a < 8 ∧ ¬(a = '2' ∧ b = '5') then
            some ("invalid URL escape " ++ goQuote ['%', a, b].asString)
          else hostEscapeErr rest2
        else some ("invalid URL escape " ++ goQuote ('%' :: a :: b :: []).asString)
      | _ => some ("invalid URL escape " ++ goQuote ('%' :: rest).asString)
    else if c.toNat < 0x80 ∧ validHostChar c = false then
      some ("invalid character " ++ goQuote c.toString ++ " in host name")
    else hostEscapeErr rest

/-- Go `net/url.validOptionalPort`: empty, or a colon followed by
digits only. -/
def validOptionalPort (port : List Char) : Bool :=
  match port with
  | [] => true
  | ':' :: digits => digits.all (fun c => '0' ≤ c ∧ c ≤ '9')
  | _ => false

/-- The `:port` section of a host: the colon plus everything after the
last colon (only consulted when the host contains a colon). -/
def colonPort (host : List Char) : List Char :=
  ':' :: (host.reverse.takeWhile (fun c => c ≠ ':')).reverse

/-- Port guard of Go `net/url.parseHost` for non-bracketed hosts: no
colon at all, or a valid optional port after the last colon. -/
def hostPortOk (host : List Char) : Bool :=
  !(host.contains ':') || validOptionalPort (colonPort host)

/-- Go `net/url.parseHost` on non-bracketed, userinfo-free hosts:
validate the optional port, then scan escapes and characters. -/
def parseHost (host : List Char) : Except String (List Char) :=
  if hostPortOk host = true then
    match hostEscapeErr host with
    | some e => .error e
    | none => .ok host
  else
    .error ("invalid port " ++ goQuote (colonPort host).asString ++ " after host")

/-- Query split of Go `net/url.parse`: a lone trailing `?` sets the
force-query flag, otherwise the query is everything after the first
`?`.  Returns `(rest, rawQuery, forceQuery)`. -/
def splitQuery (rest : List Char) : List Char × List Char × Bool :=
  if rest.getLast? = some '?' ∧ ¬('?' ∈ rest.dropLast) then
    (rest.dropLast, [], true)
  else
    ((goSplitOnce '?' true rest).1, (goSplitOnce '?' true rest).2, false)

/-- Parsed URL: the components of the modelled fragment. -/
structure GoURL where
  scheme : String
  host : String
  path : String
  rawQuery : String
  forceQuery : Bool
deriving DecidableEq, Repr

/-- Body of Go `net/url.parse` after the fragment has been split off:
control-character check, scheme scan, query split, authority and host
parsing.  Errors are returned unwrapped; `urlParse` adds the
`parse "<url>":` context. -/
def parseNoFrag (u : List Char) : Except String GoURL :=
  match u.any isCtl with
  | true => .error "net/url: invalid control character in URL"
  | false =>
    match getSchemeAux [] u with
    | .error e => .error e
    | .ok (schemeCs, restCs) =>
      if schemeCs = [] then
        .error "model: URL without scheme outside modelled fragment"
      else
        match splitQuery restCs with
        | (rest2, rawQuery, forceQuery) =>
          match rest2 with
          | '/' :: '/' :: auth =>
            let hostCs := auth.takeWhile (fun c => c ≠ '/')
            let pathCs := auth.dropWhile (fun c => c ≠ '/')
            if '@' ∈ hostCs then
              .error "model: userinfo component not modelled"
            else if hostCs.head? = some '[' then
              .error "model: bracketed IPv6 host not modelled"
            else
              match parseHost hostCs with
              | .error e => .error e
              | .ok h =>
                .ok ⟨(schemeCs.map Char.toLower).asString, h.asString,
                     pathCs.asString, rawQuery.asString, forceQuery⟩
          | _ => .error "model: opaque or authority-less URL outside modelled fragment"

/-- Model of Go `net/url.Parse` on the fragment described above: split
the fragment off at `#`, parse the remainder, wrap errors with the
quoted URL as Go `url.Error` does. -/
def urlParse (raw : String) : Except String GoURL :=
  match parseNoFrag (goSplitOnce '#' true raw.toList).1 with
  | .error e =>
    .error ("parse " ++ goQuote (goSplitOnce '#' true raw.toList).1.asString ++ ": " ++ e)
  | .ok u =>
    if (goSplitOnce '#' true raw.toList).2.isEmpty then .ok u
    else .error ("model: URL fragment component not modelled: " ++ raw)

/-- Segment cleaner of Go `path.Clean` for rooted paths: drop empty and
`.` segments, let `..` pop the previous segment (or vanish at the
root).  `acc` holds the kept segments in reverse. -/
def cleanSegsAux (acc : List (List Char)) : List (List Char) → List (List Char)
  | [] => acc.reverse
  | s :: rest =>
    if s.isEmpty || s = ['.'] then cleanSegsAux acc rest
    else if s = ['.', '.'] then cleanSegsAux acc.tail rest
    else cleanSegsAux (s :: acc) rest

/-- Interleave a separator between character-list segments. -/
def joinSegs (sep : Char) : List (List Char) → List Char
  | [] => []
  | [s] => s
  | s :: rest => s ++ sep :: joinSegs sep rest

/-- Go `path.Clean` on a rooted path (always rooted at the call sites
inside `URL.JoinPath`). -/
def rootedClean (p : List Char) : List Char :=
  let segs := cleanSegsAux [] (goSplitChar '/' p)
  if segs.isEmpty then ['/'] else '/' :: joinSegs '/' segs

/-- Model of Go `URL.JoinPath(elem)` on the path component: join the
current path of the URL with `elem` through `path.Join`, preserving a
trailing slash of `elem` and keeping relative paths relative.  Query
and force-query flag are carried over unchanged, as in Go. -/
def urlJoinPathOnParsed (u : GoURL) (elem : String) : GoURL :=
  let base := u.path.toList
  let el := elem.toList
  let p :=
    match base with
    | '/' :: _ => rootedClean (base ++ '/' :: el)
    | _ => (rootedClean ('/' :: base ++ '/' :: el)).drop 1
  let p := if ['/'].isSuffixOf el && !(['/'].isSuffixOf p) then p ++ ['/'] else p
  { u with path := p.asString }

/-- Model of Go `URL.String()` on the modelled fragment: as in Go, a
`/` is inserted between a non-empty host and a relative path, and a
`?` plus the raw query is appended when the query is non-empty or
forced. -/
def urlString (u : GoURL) : String :=
  (if u.path ≠ "" ∧ u.path.toList.head? ≠ some '/' ∧ u.host ≠ "" then
    u.scheme ++ "://" ++ u.host ++ "/" ++ u.path
  else
    u.scheme ++ "://" ++ u.host ++ u.path) ++
  (if u.forceQuery = true ∨ u.rawQuery ≠ "" then "?" ++ u.rawQuery else "")

/-- Model of Go `net/url.JoinPath(base, elem)`: parse the base URL,
join the path, serialise. -/
def urlJoinPath (base elem : String) : Except String String :=
  match urlParse base with
  | .error e => .error e
  | .ok u => .ok (urlString (urlJoinPathOnParsed u elem))


/-! ## Data model of the package -/

/-- A single-quote character, used by the Go error-message format of
`createExporter`. -/
def quo : String := (Char.ofNat 39).toString

/-- The constructed span exporter, as configured by `createExporter`:
the transport family plus the configuration observable at construction
time (collector endpoint for Jaeger, insecure flag for OTLP). -/
inductive SpanExporter where
  | jaeger (endpoint : Option String)
  | otlpGrpc (insecure : Bool)
  | otlpHttp (insecure : Bool)
  | stdout
deriving DecidableEq, Repr

/-- Resource descriptor built by `resource.NewWithAttributes`: the
schema URL plus the optional `service.name` attribute (the only
attribute the code ever sets). -/
structure Resource where
  schemaUrl : String
  serviceName : Option String
deriving DecidableEq, Repr

/-- Value of `semconv.SchemaURL` in `go.opentelemetry.io/otel/semconv/v1.4.0`. -/
def semconvSchemaURL : String := "https://opentelemetry.io/schemas/1.4.0"

/-- SDK tracer provider: the list of registered span processors (each
entry is one batch span processor forwarding to that exporter, from
`tracesdk.WithBatcher` / `tracesdk.WithSpanProcessor ∘
NewBatchSpanProcessor`) plus the resource. -/
structure TracerProvider where
  processors : List SpanExporter
  resource : Resource
deriving DecidableEq, Repr

/-- Environment variables read by the package.  `os.Getenv` does not
distinguish unset from empty, so those are plain strings;
`OTEL_PROPAGATORS` is consumed through `autoprop`, which uses
`os.LookupEnv` and does distinguish, hence `Option String`. -/
structure Env where
  OTELCONFIG_EXPORTER : String
  OTEL_EXPORTER_OTLP_ENDPOINT : String
  OTEL_SERVICE_NAME : String
  OTEL_RESOURCE_ATTRIBUTES : String
  OTEL_PROPAGATORS : Option String
deriving DecidableEq, Repr

/-- A text-map propagator, observed by its list of member formats. -/
inductive Propagator where
  | composite (formats : List String)
deriving DecidableEq, Repr

/-- Member formats of a propagator. -/
def Propagator.formats : Propagator → List String
  | .composite fs => fs

/-- The tracer provider installed process-wide: either the no-op
provider from `trace.NewNoopTracerProvider()` or an SDK provider. -/
inductive TracerProviderKind where
  | noop
  | sdk (tp : TracerProvider)
deriving DecidableEq, Repr

/-- A tracer handle, as returned by `tp.Tracer(lib)`: bound to its
provider and to the instrumentation-library name. -/
structure Tracer where
  provider : TracerProviderKind
  name : String
deriving DecidableEq, Repr

/-- The exporters that receive a span finished on this tracer: the
batch processors of the bound provider; none for the no-op provider,
whose span operations are inert. -/
def Tracer.exportTargets (t : Tracer) : List SpanExporter :=
  match t.provider with
  | .noop => []
  | .sdk tp => tp.processors

/-- The shutdown closure returned by `TraceStart`: either the initial
no-op `func() {}`, or the closure that calls `p.Shutdown` under a
`context.WithTimeout` deadline of `timeoutSeconds` seconds (started
from `context.Background()`, so independent of any caller context) and
calls `log.Fatalf` on error. -/
inductive Clean where
  | noop
  | shutdown (tp : TracerProvider) (timeoutSeconds : Nat)
deriving DecidableEq, Repr

/-- What invoking the shutdown closure does to the caller. -/
inductive CleanOutcome where
  | returned
  | fatalExit
deriving DecidableEq, Repr

/-- Run the shutdown closure.  `shutdownErr` is the result of the
`Shutdown` call of the provider under the deadline of the closure (`some e` also
covers `context.DeadlineExceeded` when the flush overruns the
deadline); the no-op closure never invokes `Shutdown`. -/
def runClean (c : Clean) (shutdownErr : Option String) : CleanOutcome :=
  match c with
  | .noop => .returned
  | .shutdown _ _ =>
    match shutdownErr with
    | none => .returned
    | some _ => .fatalExit

/-- The process-global OpenTelemetry registry touched by
`otel.SetTracerProvider` and `otel.SetTextMapPropagator`. -/
structure GlobalState where
  tracerProvider : Option TracerProviderKind
  propagator : Option Propagator
deriving DecidableEq, Repr

/-- Constant `lib = "github.com/udhos/otelconfig"`. -/
def lib : String := "github.com/udhos/otelconfig"

/-- Modelled from the spec: `autoprop.NewTextMapPropagator` is an
external dependency whose source is not under `src/`.  Per the
propagation contract of the spec, the member set is the comma-separated token list
of the propagator-format environment variable when that variable is
set (`none` suppressing all propagation), and the default list
`tracecontext,baggage` when it is unset. -/
def autopropNewTextMapPropagator (otelPropagators : Option String) : Propagator :=
  match otelPropagators with
  | none => .composite ["tracecontext", "baggage"]
  | some s =>
    let toks := goFieldsChar ',' s
    if toks.contains "none" then .composite [] else .composite toks

/-! ## Current version (`src/unnamed/part_000`) -/

namespace oteltrace

/-- Options record `TraceOptions` of the current package version. -/
structure TraceOptions where
  DefaultService : String
  NoopTracerProvider : Bool
  NoopPropagator : Bool
  Debug : Bool
deriving DecidableEq, Repr

/-- Function `createExporter(exporter, otelEndpoint, debug)`: map the selector
token to a constructed exporter.  The `debug` parameter only controls
logging and is omitted. -/
def createExporter (exporter otelEndpoint : String) : Except String SpanExporter :=
  if exporter = "jaeger" then
    if otelEndpoint = "" then
      .ok (.jaeger none)
    else
      match urlJoinPath otelEndpoint "/api/traces" with
      | .error errJoin => .error errJoin
      | .ok jaegerEndpoint => .ok (.jaeger (some jaegerEndpoint))
  else if exporter = "" ∨ exporter = "grpc" then
    .ok (.otlpGrpc true)
  else if exporter = "http" then
    .ok (.otlpHttp true)
  else if exporter = "stdout" then
    .ok .stdout
  else
    .error ("createExporter: unrecognized exporter type: " ++ quo ++ exporter ++ quo)

/-- Function `hasServiceEnvVar(debug)`: true when `OTEL_SERVICE_NAME` is
non-empty after trimming, or `OTEL_RESOURCE_ATTRIBUTES`, split on
commas, has an entry whose key (the part before the first `=`) is
`service.name`.  Identical logic in both bundled versions. -/
def hasServiceEnvVar (env : Env) : Bool :=
  if goTrimSpace env.OTEL_SERVICE_NAME ≠ "" then true
  else
    (goFieldsChar ',' env.OTEL_RESOURCE_ATTRIBUTES).any
      (fun f => goCutKey f == "service.name")

/-- Function `tracerProvider(defaultService, exporter, otelEndpoint, debug)`:
resolve the exporter, build the resource, register one batch span
processor (`tracesdk.WithBatcher(exp)`). -/
def tracerProvider (env : Env) (defaultService exporter otelEndpoint : String) :
    Except String TracerProvider :=
  match createExporter exporter otelEndpoint with
  | .error e => .error e
  | .ok exp =>
    let rsrc : Resource :=
      if defaultService = "" ∨ hasServiceEnvVar env then
        { schemaUrl := semconvSchemaURL, serviceName := none }
      else
        { schemaUrl := semconvSchemaURL, serviceName := some defaultService }
    .ok { processors := [exp], resource := rsrc }

/-- Function `tracePropagation(debug)`: build the propagator via
`autoprop.NewTextMapPropagator(propagation.TraceContext{})` (seeded
with the trace-context format) from `OTEL_PROPAGATORS`. -/
def tracePropagation (env : Env) : Propagator :=
  autopropNewTextMapPropagator env.OTEL_PROPAGATORS

/-- The three values returned by `TraceStart`. -/
structure TraceStartReturn where
  tracer : Option Tracer
  clean : Clean
  err : Option String
deriving DecidableEq, Repr

/-- Function `TraceStart(options)`: the orchestrator, as a function of the
environment and of the process-global registry it mutates. -/
def TraceStart (options : TraceOptions) (env : Env) (g0 : GlobalState) :
    TraceStartReturn × GlobalState :=
  let exporter := env.OTELCONFIG_EXPORTER
  let otelEndpoint := env.OTEL_EXPORTER_OTLP_ENDPOINT
  if options.NoopTracerProvider then
    let tp := TracerProviderKind.noop
    let g1 := { g0 with tracerProvider := some tp }
    let g2 :=
      if options.NoopPropagator then g1
      else { g1 with propagator := some (tracePropagation env) }
    (⟨some { provider := tp, name := lib }, Clean.noop, none⟩, g2)
  else
    match tracerProvider env options.DefaultService exporter otelEndpoint with
    | .error e => (⟨none, Clean.noop, some e⟩, g0)
    | .ok p =>
      let tp := TracerProviderKind.sdk p
      let g1 := { g0 with tracerProvider := some tp }
      let g2 :=
        if options.NoopPropagator then g1
        else { g1 with propagator := some (tracePropagation env) }
      (⟨some { provider := tp, name := lib }, Clean.shutdown p 5, none⟩, g2)

end oteltrace

/-! ## Older version (`src/oteltrace/trace.go`) -/

namespace oteltraceOld

/-- Function `createExporter(exporter)` of the older copy: no endpoint
parameter, no empty-token case. -/
def createExporter (exporter : String) : Except String SpanExporter :=
  if exporter = "jaeger" then
    .ok (.jaeger none)
  else if exporter = "grpc" then
    .ok (.otlpGrpc true)
  else if exporter = "http" then
    .ok (.otlpHttp true)
  else if exporter = "stdout" then
    .ok .stdout
  else
    .error ("createExporter: unrecognized exporter type: " ++ quo ++ exporter ++ quo)

/-- Function `tracerProvider(defaultService, exporter, debug)` of the older
copy: registers `tracesdk.WithBatcher(exp)` AND
`tracesdk.WithSpanProcessor(tracesdk.NewBatchSpanProcessor(exp))`,
i.e. two batch span processors for the same exporter. -/
def tracerProvider (env : Env) (defaultService exporter : String) :
    Except String TracerProvider :=
  match createExporter exporter with
  | .error e => .error e
  | .ok exp =>
    let rsrc : Resource :=
      if defaultService = "" ∨ oteltrace.hasServiceEnvVar env then
        { schemaUrl := semconvSchemaURL, serviceName := none }
      else
        { schemaUrl := semconvSchemaURL, serviceName := some defaultService }
    .ok { processors := [exp, exp], resource := rsrc }

end oteltraceOld

/-! ## Helper lemmas -/

/-- The environment check `hasServiceEnvVar` holds exactly when the
explicit service-name variable is non-empty after trimming, or the
resource-attributes variable, split on commas, has an entry whose key
before the first equals sign is `service.name`. -/
theorem hasServiceEnvVar_iff (env : Env) :
    oteltrace.hasServiceEnvVar env = true ↔
      (goTrimSpace env.OTEL_SERVICE_NAME ≠ "" ∨
       ∃ f ∈ goFieldsChar ',' env.OTEL_RESOURCE_ATTRIBUTES,
         goCutKey f = "service.name") := by
  unfold oteltrace.hasServiceEnvVar
  split_ifs with h
  · simp [h]
  · simp only [List.any_eq_true, beq_iff_eq]
    constructor
    · exact fun hx => Or.inr hx
    · rintro (hx | hx)
      · exact absurd hx h
      · exact hx

/-! ## Claims -/

/-- C1: for every selector token outside
`{"", "grpc", "http", "jaeger", "stdout"}`, both bundled versions of
`createExporter` return the unrecognized-exporter error carrying that
exact token, and neither returns a constructed exporter. -/
theorem C1_unrecognized_token (t e : String)
    (h1 : t ≠ "") (h2 : t ≠ "grpc") (h3 : t ≠ "http")
    (h4 : t ≠ "jaeger") (h5 : t ≠ "stdout") :
    oteltrace.createExporter t e =
      .error ("createExporter: unrecognized exporter type: " ++ quo ++ t ++ quo) ∧
    (∀ x, oteltrace.createExporter t e ≠ .ok x) ∧
    oteltraceOld.createExporter t =
      .error ("createExporter: unrecognized exporter type: " ++ quo ++ t ++ quo) ∧
    (∀ x, oteltraceOld.createExporter t ≠ .ok x) ∧
    (∃ pre post,
      ("createExporter: unrecognized exporter type: " ++ quo ++ t ++ quo) =
        pre ++ t ++ post) := by
  have hnew : oteltrace.createExporter t e =
      .error ("createExporter: unrecognized exporter type: " ++ quo ++ t ++ quo) := by
    unfold oteltrace.createExporter
    rw [if_neg h4, if_neg (not_or.mpr ⟨h1, h2⟩), if_neg h3, if_neg h5]
  have hold : oteltraceOld.createExporter t =
      .error ("createExporter: unrecognized exporter type: " ++ quo ++ t ++ quo) := by
    unfold oteltraceOld.createExporter
    rw [if_neg h4, if_neg h2, if_neg h3, if_neg h5]
  refine ⟨hnew, ?_, hold, ?_, ?_⟩
  · intro x hx
    rw [hnew] at hx
    exact Except.noConfusion hx
  · intro x hx
    rw [hold] at hx
    exact Except.noConfusion hx
  · exact ⟨"createExporter: unrecognized exporter type: " ++ quo, quo, rfl⟩

/-- C1 witness at the concrete token `foo`. -/
theorem C1_unrecognized_token_witness :
    oteltrace.createExporter "foo" "" =
      .error ("createExporter: unrecognized exporter type: " ++ quo ++ "foo" ++ quo) :=
  (C1_unrecognized_token "foo" "" (by decide) (by decide) (by decide)
    (by decide) (by decide)).1

/-- C2: the current resolver treats the empty token and `grpc` as
synonyms, both yielding the insecure gRPC-transport OTLP exporter, for
every endpoint value; `http` yields the insecure HTTP-transport OTLP
exporter and `stdout` the stdout exporter. -/
theorem C2_empty_grpc_synonyms (e : String) :
    oteltrace.createExporter "" e = .ok (.otlpGrpc true) ∧
    oteltrace.createExporter "grpc" e = .ok (.otlpGrpc true) ∧
    oteltrace.createExporter "http" e = .ok (.otlpHttp true) ∧
    oteltrace.createExporter "stdout" e = .ok .stdout :=
  ⟨rfl, rfl, rfl, rfl⟩

/-- C4: whenever the exporter resolves, the provider builder succeeds,
and the resource it builds carries the fixed semantic-conventions
schema URL and embeds the default service name exactly when the
trimmed explicit override is empty, no comma-separated entry of the
resource-attributes variable has key `service.name`, and the default
is itself non-empty; otherwise the resource has no service-name
attribute. -/
theorem C4_service_name_precedence (env : Env) (ds exporter endpoint : String)
    (e : SpanExporter)
    (hexp : oteltrace.createExporter exporter endpoint = .ok e) :
    oteltrace.tracerProvider env ds exporter endpoint =
      .ok { processors := [e],
            resource :=
              { schemaUrl := semconvSchemaURL,
                serviceName :=
                  if goTrimSpace env.OTEL_SERVICE_NAME ≠ "" ∨
                     (∃ f ∈ goFieldsChar ',' env.OTEL_RESOURCE_ATTRIBUTES,
                       goCutKey f = "service.name") ∨
                     ds = ""
                  then none else some ds } } ∧
    semconvSchemaURL = "https://opentelemetry.io/schemas/1.4.0" := by
  refine ⟨?_, rfl⟩
  have hcond : (ds = "" ∨ oteltrace.hasServiceEnvVar env = true) ↔
      (goTrimSpace env.OTEL_SERVICE_NAME ≠ "" ∨
       (∃ f ∈ goFieldsChar ',' env.OTEL_RESOURCE_ATTRIBUTES,
         goCutKey f = "service.name") ∨
       ds = "") := by
    rw [hasServiceEnvVar_iff env]
    constructor
    · rintro (h | h | h)
      exacts [Or.inr (Or.inr h), Or.inl h, Or.inr (Or.inl h)]
    · rintro (h | h | h)
      exacts [Or.inr (Or.inl h), Or.inr (Or.inr h), Or.inl h]
  have hred : oteltrace.tracerProvider env ds exporter endpoint =
      .ok { processors := [e],
            resource :=
              if ds = "" ∨ oteltrace.hasServiceEnvVar env = true then
                { schemaUrl := semconvSchemaURL, serviceName := none }
              else
                { schemaUrl := semconvSchemaURL, serviceName := some ds } } := by
    unfold oteltrace.tracerProvider
    rw [hexp]
  rw [hred]
  by_cases h : goTrimSpace env.OTEL_SERVICE_NAME ≠ "" ∨
      (∃ f ∈ goFieldsChar ',' env.OTEL_RESOURCE_ATTRIBUTES,
        goCutKey f = "service.name") ∨
      ds = ""
  · rw [if_pos (hcond.mpr h), if_pos h]
  · rw [if_neg (fun hx => h (hcond.mp hx)), if_neg h]

/-- C4 witness: no overrides set, default service `mysvc`, stdout
exporter. -/
theorem C4_service_name_precedence_witness :
    oteltrace.tracerProvider ⟨"", "", "", "", none⟩ "mysvc" "stdout" "" =
      .ok { processors := [SpanExporter.stdout],
            resource :=
              { schemaUrl := semconvSchemaURL,
                serviceName :=
                  if goTrimSpace ("" : String) ≠ "" ∨
                     (∃ f ∈ goFieldsChar ',' ("" : String),
                       goCutKey f = "service.name") ∨
                     ("mysvc" : String) = ""
                  then none else some "mysvc" } } :=
  (C4_service_name_precedence ⟨"", "", "", "", none⟩ "mysvc" "stdout" ""
    SpanExporter.stdout rfl).1

/-- C5: when tracing is enabled and the provider builder fails, the
orchestrator returns that very error together with a no-op shutdown
closure and no tracer, and leaves the process-global registry exactly
as it was: no provider is installed and the propagator is untouched. -/
theorem C5_error_path (options : oteltrace.TraceOptions) (env : Env)
    (g0 : GlobalState) (msg : String)
    (hnoop : options.NoopTracerProvider = false)
    (herr : oteltrace.tracerProvider env options.DefaultService
        env.OTELCONFIG_EXPORTER env.OTEL_EXPORTER_OTLP_ENDPOINT = .error msg) :
    oteltrace.TraceStart options env g0 = (⟨none, Clean.noop, some msg⟩, g0) := by
  unfold oteltrace.TraceStart
  rw [hnoop, if_neg Bool.false_ne_true, herr]

/-- C5 witness at the unrecognized token `bad`. -/
theorem C5_error_path_witness :
    oteltrace.TraceStart ⟨"svc", false, false, false⟩ ⟨"bad", "", "", "", none⟩
        ⟨none, none⟩ =
      (⟨none, Clean.noop,
        some ("createExporter: unrecognized exporter type: " ++ quo ++ "bad" ++ quo)⟩,
       ⟨none, none⟩) :=
  C5_error_path ⟨"svc", false, false, false⟩ ⟨"bad", "", "", "", none⟩
    ⟨none, none⟩ _ rfl rfl

/-- C6: on the non-noop success path the returned shutdown closure is
bound to the built provider with a deadline of exactly 5 seconds, and
invoking it turns every flush or close error (deadline exceeded
included) into a fatal process exit, while an error-free shutdown
simply returns. -/
theorem C6_shutdown_deadline_fatal (options : oteltrace.TraceOptions) (env : Env)
    (g0 : GlobalState) (p : TracerProvider)
    (hnoop : options.NoopTracerProvider = false)
    (hok : oteltrace.tracerProvider env options.DefaultService
        env.OTELCONFIG_EXPORTER env.OTEL_EXPORTER_OTLP_ENDPOINT = .ok p) :
    (oteltrace.TraceStart options env g0).1.clean = Clean.shutdown p 5 ∧
    (∀ e : String, runClean (Clean.shutdown p 5) (some e) = .fatalExit) ∧
    runClean (Clean.shutdown p 5) none = .returned := by
  refine ⟨?_, fun e => rfl, rfl⟩
  unfold oteltrace.TraceStart
  rw [hnoop, if_neg Bool.false_ne_true, hok]

/-- C6 witness with the stdout exporter. -/
theorem C6_shutdown_deadline_fatal_witness :
    (oteltrace.TraceStart ⟨"svc", false, false, false⟩ ⟨"stdout", "", "", "", none⟩
        ⟨none, none⟩).1.clean =
      Clean.shutdown ⟨[SpanExporter.stdout], ⟨semconvSchemaURL, some "svc"⟩⟩ 5 :=
  (C6_shutdown_deadline_fatal ⟨"svc", false, false, false⟩
    ⟨"stdout", "", "", "", none⟩ ⟨none, none⟩ _ rfl rfl).1

/-- C7: with the no-op tracer provider requested, the orchestrator
returns a tracer bound to the no-op provider (its spans reach no
exporter), the no-op shutdown closure (which returns without error no
matter what), and no error; it installs the no-op provider globally
and still configures the propagator exactly when the no-op-propagator
option is unset. -/
theorem C7_noop_mode (options : oteltrace.TraceOptions) (env : Env)
    (g0 : GlobalState)
    (h : options.NoopTracerProvider = true) :
    oteltrace.TraceStart options env g0 =
      (⟨some { provider := .noop, name := lib }, Clean.noop, none⟩,
       { tracerProvider := some TracerProviderKind.noop,
         propagator :=
           if options.NoopPropagator then g0.propagator
           else some (oteltrace.tracePropagation env) }) ∧
    Tracer.exportTargets { provider := .noop, name := lib } = [] ∧
    (∀ e : Option String, runClean Clean.noop e = .returned) := by
  refine ⟨?_, rfl, fun e => rfl⟩
  by_cases hp : options.NoopPropagator = true
  · simp [oteltrace.TraceStart, h, hp]
  · simp [oteltrace.TraceStart, h, hp]

/-- C7 witness: no-op provider, propagator still configured. -/
theorem C7_noop_mode_witness :
    oteltrace.TraceStart ⟨"svc", true, false, false⟩ ⟨"", "", "", "", none⟩
        ⟨none, none⟩ =
      (⟨some { provider := .noop, name := lib }, Clean.noop, none⟩,
       { tracerProvider := some TracerProviderKind.noop,
         propagator :=
           if (false : Bool) then (⟨none, none⟩ : GlobalState).propagator
           else some (oteltrace.tracePropagation ⟨"", "", "", "", none⟩) }) :=
  (C7_noop_mode ⟨"svc", true, false, false⟩ ⟨"", "", "", "", none⟩
    ⟨none, none⟩ rfl).1

/-- C8: with the propagator-format environment variable unset, the
propagation configurator builds the default composite propagator whose
member list is `tracecontext,baggage`, so the fallback set includes
both the trace-context and the baggage formats. -/
theorem C8_default_propagator (env : Env)
    (h : env.OTEL_PROPAGATORS = none) :
    oteltrace.tracePropagation env = .composite ["tracecontext", "baggage"] ∧
    "tracecontext" ∈ (oteltrace.tracePropagation env).formats ∧
    "baggage" ∈ (oteltrace.tracePropagation env).formats := by
  unfold oteltrace.tracePropagation autopropNewTextMapPropagator
  rw [h]
  exact ⟨rfl, by simp [Propagator.formats], by simp [Propagator.formats]⟩

/-- C8 witness on a concrete environment with the variable unset. -/
theorem C8_default_propagator_witness :
    oteltrace.tracePropagation ⟨"", "", "", "", none⟩ =
      .composite ["tracecontext", "baggage"] :=
  (C8_default_propagator ⟨"", "", "", "", none⟩ rfl).1

/-- C9 counterexample: on the empty token the two bundled resolvers
disagree — the current one succeeds with the gRPC OTLP exporter while
the older one fails with the unrecognized-exporter error —so they do
not compute the same result on every input. -/
theorem C9_counterexample_empty_token :
    oteltrace.createExporter "" "" = .ok (.otlpGrpc true) ∧
    oteltraceOld.createExporter "" =
      .error ("createExporter: unrecognized exporter type: " ++ quo ++ "" ++ quo) :=
  ⟨rfl, rfl⟩

/-- C9 amended: the two bundled resolvers agree on every token other
than the empty one, provided the endpoint override is empty whenever
the token is `jaeger`; they disagree on the empty token (current:
gRPC exporter, older: error) and on `jaeger` with a non-empty
override, where only the current version configures the joined
endpoint while the older version always uses the built-in default. -/
theorem C9_resolvers_agree (t e : String) (ht : t ≠ "")
    (hj : t = "jaeger" → e = "") :
    oteltrace.createExporter t e = oteltraceOld.createExporter t := by
  by_cases h1 : t = "jaeger"
  · subst h1
    rw [hj rfl]
    rfl
  · by_cases h2 : t = "grpc"
    · subst h2
      rfl
    · by_cases h3 : t = "http"
      · subst h3
        rfl
      · by_cases h4 : t = "stdout"
        · subst h4
          rfl
        · unfold oteltrace.createExporter oteltraceOld.createExporter
          simp only [if_neg h1, if_neg h2, if_neg h3, if_neg h4,
            if_neg (not_or.mpr ⟨ht, h2⟩)]

/-- C9 witness at the token `grpc` with a non-empty override. -/
theorem C9_resolvers_agree_witness :
    oteltrace.createExporter "grpc" "http://collector:4317" =
      oteltraceOld.createExporter "grpc" :=
  C9_resolvers_agree "grpc" "http://collector:4317" (by decide)
    (fun h => absurd h (by decide))

/-- C10 counterexample: the older provider builder registers two batch
span processors for the one resolved exporter (one from the batcher
option, one from the explicitly added batch span processor), so a
finished span is handed to the stdout exporter twice, not once. -/
theorem C10_counterexample_double_batch :
    (oteltraceOld.tracerProvider ⟨"", "", "", "", none⟩ "svc" "stdout").map
        (fun tp => tp.processors.length) = .ok 2 ∧
    (oteltraceOld.tracerProvider ⟨"", "", "", "", none⟩ "svc" "stdout").map
        (fun tp => tp.processors.count .stdout) = .ok 2 :=
  ⟨rfl, rfl⟩

/-- C10 amended: the current provider builder registers exactly one
batch span processor for the resolved exporter, handing each finished
span to it exactly once; the older builder registers two batch span
processors for the same exporter, handing each finished span to it
twice. -/
theorem C10_batch_processor_count :
    (∀ (env : Env) (ds t e : String) (exp : SpanExporter),
      oteltrace.createExporter t e = .ok exp →
      ∃ r, oteltrace.tracerProvider env ds t e = .ok r ∧
        r.processors = [exp] ∧ r.processors.count exp = 1) ∧
    (∀ (env : Env) (ds t : String) (exp : SpanExporter),
      oteltraceOld.createExporter t = .ok exp →
      ∃ r, oteltraceOld.tracerProvider env ds t = .ok r ∧
        r.processors = [exp, exp] ∧ r.processors.count exp = 2) := by
  constructor
  · intro env ds t e exp h
    have hred : oteltrace.tracerProvider env ds t e =
        .ok { processors := [exp],
              resource :=
                if ds = "" ∨ oteltrace.hasServiceEnvVar env = true then
                  { schemaUrl := semconvSchemaURL, serviceName := none }
                else
                  { schemaUrl := semconvSchemaURL, serviceName := some ds } } := by
      unfold oteltrace.tracerProvider
      rw [h]
    exact ⟨_, hred, rfl, by simp⟩
  · intro env ds t exp h
    have hred : oteltraceOld.tracerProvider env ds t =
        .ok { processors := [exp, exp],
              resource :=
                if ds = "" ∨ oteltrace.hasServiceEnvVar env = true then
                  { schemaUrl := semconvSchemaURL, serviceName := none }
                else
                  { schemaUrl := semconvSchemaURL, serviceName := some ds } } := by
      unfold oteltraceOld.tracerProvider
      rw [h]
    exact ⟨_, hred, rfl, by simp⟩

/-- C10 witness with the stdout exporter through both builders. -/
theorem C10_batch_processor_count_witness :
    (∃ r, oteltrace.tracerProvider ⟨"", "", "", "", none⟩ "svc" "stdout" "" = .ok r ∧
      r.processors = [SpanExporter.stdout] ∧ r.processors.count .stdout = 1) ∧
    (∃ r, oteltraceOld.tracerProvider ⟨"", "", "", "", none⟩ "svc" "stdout" = .ok r ∧
      r.processors = [SpanExporter.stdout, SpanExporter.stdout] ∧
      r.processors.count .stdout = 2) :=
  ⟨C10_batch_processor_count.1 ⟨"", "", "", "", none⟩ "svc" "stdout" "" .stdout rfl,
   C10_batch_processor_count.2 ⟨"", "", "", "", none⟩ "svc" "stdout" .stdout rfl⟩
